import Mathlib

/-!
Verification of the weather-risk and climate-trend analysis engine of the
"NASA Will It Rain On My Parade" repository.

The repository carries two snapshots of the engine, `src/logic.py` (embedded in
namespace `Logic`) and `src/backend/logic.py` (embedded in namespace `Backend`).
The analytical functions work on pandas DataFrames whose rows carry the columns
Year, Month, Max_Temperature_C and Precipitation_mm; a row is embedded as
`DayRecord` with temperatures and precipitation as exact rationals.  I/O
(the network request loop, JSON parsing, the mock CSV file) is abstracted into
explicit parameters so that the surrounding control flow — retries, fallback,
exception absorption — is modelled faithfully.  Python exceptions are modelled
by `Except String`; a function whose Python original cannot raise returns a
plain value.  Presentational `status_message` / `message` strings are not
modelled; every numeric and enumerated field is.
-/

namespace ParadePlanner

/-- One row of the DataFrame produced by `fetch_nasa_power_data`:
columns Year, Month, Max_Temperature_C, Precipitation_mm. -/
structure DayRecord where
  year : Int
  month : Int
  maxTemp : Rat
  precip : Rat
deriving Repr, DecidableEq

/-- The `risk_level` strings used by every risk calculator. -/
inductive RiskLevel
  | high
  | moderate
  | low
  | minimal
  | unknown
deriving Repr, DecidableEq

/-- The numeric/enumerated fields of the dict returned by the risk
calculators (`status_message` omitted). -/
structure Risk where
  probability : Rat
  risk_threshold : Rat
  risk_level : RiskLevel
  total_observations : Nat
  adverse_count : Nat
deriving Repr, DecidableEq

/-- The `trend_status` strings of `analyze_climate_change_trend`. -/
inductive TrendStatus
  | significant_warming
  | warming_trend
  | cooling_trend
  | stable
  | insufficient_data
  | unknown
deriving Repr, DecidableEq

/-- The numeric/enumerated fields of the dict returned by
`analyze_climate_change_trend` (`message` omitted). -/
structure Trend where
  trend_status : TrendStatus
  historical_mean : Rat
  recent_mean : Rat
  difference : Rat
deriving Repr, DecidableEq

/-- Python's built-in `round` to an integer: round half to even. -/
def pyRoundInt (x : Rat) : Int :=
  let f := Int.floor x
  let d := x - f
  if d < 1/2 then f
  else if 1/2 < d then f + 1
  else if f % 2 = 0 then f
  else f + 1

/-- Python's `round(x, ndigits)` on exact rationals (round half to even). -/
def pyRound (x : Rat) (ndigits : Nat) : Rat :=
  (pyRoundInt (x * (10 : Rat) ^ ndigits) : Rat) / (10 : Rat) ^ ndigits

/-- Sum of a list of rationals (`pandas` column sum). -/
def listSum (xs : List Rat) : Rat := xs.foldr (· + ·) 0

/-- Arithmetic mean of a list of rationals (`pandas.Series.mean`); the callers
below only apply it to non-empty lists. -/
def listMean (xs : List Rat) : Rat := listSum xs / (xs.length : Rat)

/-- Insert into an ascending-sorted list. -/
def insertAsc {α : Type} [LinearOrder α] (x : α) : List α → List α
  | [] => [x]
  | y :: ys => if x ≤ y then x :: y :: ys else y :: insertAsc x ys

/-- Ascending insertion sort: the sort underlying `np.percentile` and
`sorted(df['Year'].unique())`. -/
def sortAsc {α : Type} [LinearOrder α] (xs : List α) : List α := xs.foldr insertAsc []

/-- Zero-based list indexing with a default, `xs[i]` of the sorted sample. -/
def nthD (xs : List Rat) (i : Nat) (d : Rat) : Rat :=
  match xs, i with
  | [], _ => d
  | x :: _, 0 => x
  | _ :: xs, i + 1 => nthD xs i d

/-- `np.percentile(xs, q)` with the default linear interpolation:
with `s` the ascending sort of `xs` and `h = (n-1)·q/100`, the result is
`s[⌊h⌋] + (h-⌊h⌋)·(s[⌊h⌋+1] - s[⌊h⌋])`. -/
def npPercentile (xs : List Rat) (q : Rat) : Rat :=
  let s := sortAsc xs
  let n := s.length
  if n = 0 then 0
  else
    let h : Rat := ((n : Rat) - 1) * q / 100
    let i : Nat := (Int.floor h).toNat
    let lower := nthD s i 0
    let upper := nthD s (min (i + 1) (n - 1)) 0
    lower + (h - (i : Rat)) * (upper - lower)

/-- `monthly_data['Year'].max()` (callers only use it on non-empty data). -/
def maxYear : List DayRecord → Int
  | [] => 0
  | r :: rs => (rs.map (·.year)).foldl max r.year

/-- The distinct elements of a list of years (keeping last occurrences;
only the resulting set matters to its users). -/
def dedupYears : List Int → List Int
  | [] => []
  | y :: ys => if y ∈ ys then dedupYears ys else y :: dedupYears ys

/-- Number of distinct years in a dataset (`df['Year'].unique()` count). -/
def distinctYears (rows : List DayRecord) : Nat :=
  (dedupYears (rows.map (·.year))).length

/-- Modelled from the spec: removing from a dataset every row that carries the
−999 missing-value sentinel in one of its climate variables (the embedded
record set carries Max_Temperature_C and Precipitation_mm). -/
def removeSentinels (rows : List DayRecord) : List DayRecord :=
  rows.filter (fun r => r.maxTemp ≠ -999 ∧ r.precip ≠ -999)

/-- Modelled from the spec: the risk-level step function of `probability_pct`
claimed to be shared by all hazards (≥20 High, ≥10 Moderate, ≥5 Low,
else Minimal). -/
def riskLevelSpec (p : Rat) : RiskLevel :=
  if p ≥ 20 then .high
  else if p ≥ 10 then .moderate
  else if p ≥ 5 then .low
  else .minimal

/-- Modelled from the spec: the 5-year trend windows of §4.5 — the mean over
the rows of the first 5 distinct sorted years paired with the mean over the
rows of the last 5 distinct sorted years.  The spec takes the mean of
`avg_temperature_c`; no such column exists in the code's record set, so the
temperature column the code carries stands in (the window structure, which is
what the code is compared against, is unaffected by the column choice). -/
def spec_period_means (rows : List DayRecord) : Rat × Rat :=
  let years := sortAsc (dedupYears (rows.map (·.year)))
  let early_years := years.take 5
  let recent_years := years.drop (years.length - 5)
  (listMean ((rows.filter (fun r => r.year ∈ early_years)).map (·.maxTemp)),
   listMean ((rows.filter (fun r => r.year ∈ recent_years)).map (·.maxTemp)))

/-- The difference `recent_mean - historical_mean` computed inside
`analyze_climate_change_trend` before rounding, written out over the same
filtered subsets. -/
def trendDifference (rows : List DayRecord) : Rat :=
  listMean ((rows.filter (fun r => r.year = maxYear rows)).map (·.maxTemp)) -
  listMean ((rows.filter (fun r => r.year < maxYear rows)).map (·.maxTemp))

namespace Logic

/-- `src/logic.py calculate_adverse_probability`.  `hasTempCol` models whether
the DataFrame has the `Max_Temperature_C` column (a bare `pd.DataFrame()` does
not). -/
def calculate_adverse_probability (monthly_data : List DayRecord)
    (hasTempCol : Bool) : Except String Risk :=
  if monthly_data.isEmpty then .error "No data provided"
  else if ¬ hasTempCol then .error "Temperature data not found"
  else
    let valid_temp_data := monthly_data.filter (fun r => r.maxTemp > -100)
    if valid_temp_data.length = 0 then .error "No valid temperature data found"
    else
      let risk_threshold : Rat := 30
      let adverse_events := valid_temp_data.filter (fun r => r.maxTemp > risk_threshold)
      let total_observations := monthly_data.length
      let adverse_count := adverse_events.length
      let probability : Rat :=
        if total_observations > 0 then
          ((adverse_count : Rat) / (total_observations : Rat)) * 100
        else 0
      let risk_level : RiskLevel :=
        if probability ≥ 20 then .high
        else if probability ≥ 10 then .moderate
        else if probability ≥ 5 then .low
        else .minimal
      .ok { probability := pyRound probability 1
            risk_threshold := pyRound risk_threshold 1
            risk_level := risk_level
            total_observations := total_observations
            adverse_count := adverse_count }

/-- `src/logic.py calculate_precipitation_risk`. -/
def calculate_precipitation_risk (monthly_data : List DayRecord) : Risk :=
  if monthly_data.isEmpty then
    { probability := 0, risk_threshold := 0, risk_level := .unknown
      total_observations := 0, adverse_count := 0 }
  else
    let valid_precip_data := monthly_data.filter (fun r => r.precip ≥ 0)
    if valid_precip_data.length = 0 then
      { probability := 0, risk_threshold := 0, risk_level := .unknown
        total_observations := 0, adverse_count := 0 }
    else
      let precip_threshold : Rat := 5
      let adverse_count :=
        (valid_precip_data.filter (fun r => r.precip > precip_threshold)).length
      let total_observations := monthly_data.length
      let probability : Rat :=
        if total_observations > 0 then
          ((adverse_count : Rat) / (total_observations : Rat)) * 100
        else 0
      let risk_level : RiskLevel :=
        if probability ≥ 20 then .high
        else if probability ≥ 10 then .moderate
        else if probability ≥ 5 then .low
        else .minimal
      { probability := pyRound probability 1
        risk_threshold := pyRound precip_threshold 1
        risk_level := risk_level
        total_observations := total_observations
        adverse_count := adverse_count }

/-- One month's row of the `seasonal_adjustments` table of
`get_seasonal_cold_threshold`. -/
structure ThresholdRow where
  base : Rat
  beach : Rat
  picnic : Rat
  jog : Rat
  general : Rat
deriving Repr, DecidableEq

/-- The `seasonal_adjustments` dict of `src/logic.py get_seasonal_cold_threshold`
(fields in source order base/beach/picnic/running/general); `dict.get(month,
seasonal_adjustments[1])` defaults to the January row. -/
def seasonal_adjustments (month : Int) : ThresholdRow :=
  if month = 12 then ⟨20, 22, 18, 16, 20⟩
  else if month = 1 then ⟨20, 22, 18, 16, 20⟩
  else if month = 2 then ⟨20, 22, 18, 16, 20⟩
  else if month = 3 then ⟨20, 23, 18, 16, 20⟩
  else if month = 4 then ⟨18, 21, 16, 14, 18⟩
  else if month = 5 then ⟨16, 19, 14, 12, 16⟩
  else if month = 6 then ⟨14, 17, 12, 10, 14⟩
  else if month = 7 then ⟨14, 17, 12, 10, 14⟩
  else if month = 8 then ⟨14, 17, 12, 10, 14⟩
  else if month = 9 then ⟨16, 19, 14, 12, 16⟩
  else if month = 10 then ⟨18, 21, 16, 14, 18⟩
  else if month = 11 then ⟨20, 23, 18, 16, 20⟩
  else ⟨20, 22, 18, 16, 20⟩

/-- `src/logic.py get_seasonal_cold_threshold`: `month_data.get(activity,
month_data["general"])`, so any key other than the four named ones (and
"general" itself) yields the general threshold. -/
def get_seasonal_cold_threshold (month : Int) (activity : String) : Rat :=
  let month_data := seasonal_adjustments month
  if activity = "base" then month_data.base
  else if activity = "beach" then month_data.beach
  else if activity = "picnic" then month_data.picnic
  else if activity = "running" then month_data.jog
  else month_data.general

/-- `src/logic.py calculate_cold_risk` (numeric fields; the season/activity
strings of the returned dict are presentational and omitted). -/
def calculate_cold_risk (monthly_data : List DayRecord) (activity : String) : Risk :=
  if monthly_data.isEmpty then
    { probability := 0, risk_threshold := 0, risk_level := .unknown
      total_observations := 0, adverse_count := 0 }
  else
    let valid_temp_data := monthly_data.filter (fun r => r.maxTemp > -100)
    if valid_temp_data.length = 0 then
      { probability := 0, risk_threshold := 0, risk_level := .unknown
        total_observations := 0, adverse_count := 0 }
    else
      let month : Int :=
        match monthly_data with
        | [] => 1
        | r :: _ => r.month
      let cold_threshold := get_seasonal_cold_threshold month activity
      let cold_events := valid_temp_data.filter (fun r => r.maxTemp < cold_threshold)
      let total_observations := monthly_data.length
      let cold_count := cold_events.length
      let probability : Rat :=
        if total_observations > 0 then
          ((cold_count : Rat) / (total_observations : Rat)) * 100
        else 0
      let risk_level : RiskLevel :=
        if probability ≥ 20 then .high
        else if probability ≥ 10 then .moderate
        else if probability ≥ 5 then .low
        else .minimal
      { probability := pyRound probability 1
        risk_threshold := pyRound cold_threshold 1
        risk_level := risk_level
        total_observations := total_observations
        adverse_count := cold_count }

/-- The request loop of `fetch_nasa_power_data`: `for attempt in range(3)`,
breaking on the first transport success, sleeping 2 seconds after every failed
attempt except the last.  `attemptOk i` abstracts whether attempt `i` succeeds
at transport level.  Result: index of the first successful attempt (`none` when
all `max_retries` fail) paired with the number of `time.sleep` calls made. -/
def retryRequest (attemptOk : Nat → Bool) : Option Nat × Nat :=
  if attemptOk 0 then (some 0, 0)
  else if attemptOk 1 then (some 1, 1)
  else if attemptOk 2 then (some 2, 2)
  else (none, 2)

/-- `max_retries = 3` of `fetch_nasa_power_data` (total attempts made). -/
def max_retries : Nat := 3

/-- The fixed backoff of `time.sleep(2)` between attempts, in seconds. -/
def backoff_seconds : Nat := 2

/-- `src/logic.py fetch_nasa_power_data`.  `attemptOk` abstracts the transport
outcome of each request attempt; `processed` abstracts the JSON
parsing/validation/record-building of a transport-successful response (any of
whose failures raise and are caught by the outer handler); `mock_data`
abstracts `pd.read_csv('mock_data.csv')` (`none` = `FileNotFoundError`).  On
any inner failure the handler falls back to the mock file and re-raises when
that file is missing. -/
def fetch_nasa_power_data (attemptOk : Nat → Bool)
    (processed : Except String (List DayRecord))
    (mock_data : Option (List DayRecord)) : Except String (List DayRecord) :=
  let attempt : Except String (List DayRecord) :=
    match (retryRequest attemptOk).1 with
    | none => .error "Failed to fetch NASA POWER data after 3 attempts"
    | some _ => processed
  match attempt with
  | .ok df => .ok df
  | .error e =>
    match mock_data with
    | some df => .ok df
    | none => .error ("NASA POWER API failed and mock data not found: " ++ e)

/-- `src/logic.py load_historical_data`: validates month and coordinates and
filters the fetched data to the month, but the enclosing `except` handler
converts every raised error into an empty DataFrame.  `fetched` abstracts the
outcome of the inner `fetch_nasa_power_data` call. -/
def load_historical_data (month_filter : Int) (lat lon : Rat)
    (fetched : Except String (List DayRecord)) : List DayRecord :=
  let body : Except String (List DayRecord) :=
    if month_filter < 1 ∨ month_filter > 12 then
      .error "Month must be between 1 and 12"
    else if ¬ (-90 ≤ lat ∧ lat ≤ 90) then
      .error "Latitude must be between -90 and 90"
    else if ¬ (-180 ≤ lon ∧ lon ≤ 180) then
      .error "Longitude must be between -180 and 180"
    else
      match fetched with
      | .error e => .error e
      | .ok df =>
        let monthly_data := df.filter (fun r => r.month = month_filter)
        if monthly_data.isEmpty then .error "No data found for month"
        else .ok monthly_data
  match body with
  | .ok d => d
  | .error _ => []

end Logic

namespace Backend

/-- `src/backend/logic.py calculate_adverse_probability`: the 90th percentile of
the valid temperatures is the exceedance threshold, `total_observations` is the
valid-row count, and `risk_level` is classified from the P90 value itself. -/
def calculate_adverse_probability (monthly_data : List DayRecord)
    (hasTempCol : Bool) : Except String Risk :=
  if monthly_data.isEmpty then .error "No data provided"
  else if ¬ hasTempCol then .error "Temperature data not found"
  else
    let valid_temp_data := monthly_data.filter (fun r => r.maxTemp > -100)
    if valid_temp_data.length = 0 then
      .ok { probability := 0, risk_threshold := 0, risk_level := .unknown
            total_observations := monthly_data.length, adverse_count := 0 }
    else
      let risk_threshold := npPercentile (valid_temp_data.map (·.maxTemp)) 90
      let adverse_events := valid_temp_data.filter (fun r => r.maxTemp > risk_threshold)
      let total_observations := valid_temp_data.length
      let adverse_count := adverse_events.length
      let probability : Rat :=
        if total_observations > 0 then
          ((adverse_count : Rat) / (total_observations : Rat)) * 100
        else 0
      let risk_level : RiskLevel :=
        if risk_threshold ≥ 30 then .high
        else if risk_threshold ≥ 25 then .moderate
        else .low
      .ok { probability := pyRound probability 1
            risk_threshold := pyRound risk_threshold 1
            risk_level := risk_level
            total_observations := total_observations
            adverse_count := adverse_count }

/-- `src/backend/logic.py calculate_precipitation_risk` (same body as the
`src/logic.py` version). -/
def calculate_precipitation_risk (monthly_data : List DayRecord) : Risk :=
  if monthly_data.isEmpty then
    { probability := 0, risk_threshold := 0, risk_level := .unknown
      total_observations := 0, adverse_count := 0 }
  else
    let valid_precip_data := monthly_data.filter (fun r => r.precip ≥ 0)
    if valid_precip_data.length = 0 then
      { probability := 0, risk_threshold := 0, risk_level := .unknown
        total_observations := 0, adverse_count := 0 }
    else
      let precip_threshold : Rat := 5
      let adverse_count :=
        (valid_precip_data.filter (fun r => r.precip > precip_threshold)).length
      let total_observations := monthly_data.length
      let probability : Rat :=
        if total_observations > 0 then
          ((adverse_count : Rat) / (total_observations : Rat)) * 100
        else 0
      let risk_level : RiskLevel :=
        if probability ≥ 20 then .high
        else if probability ≥ 10 then .moderate
        else if probability ≥ 5 then .low
        else .minimal
      { probability := pyRound probability 1
        risk_threshold := pyRound precip_threshold 1
        risk_level := risk_level
        total_observations := total_observations
        adverse_count := adverse_count }

/-- `src/backend/logic.py get_seasonal_cold_threshold` (table identical to the
`src/logic.py` version). -/
def get_seasonal_cold_threshold (month : Int) (activity : String) : Rat :=
  let month_data := Logic.seasonal_adjustments month
  if activity = "base" then month_data.base
  else if activity = "beach" then month_data.beach
  else if activity = "picnic" then month_data.picnic
  else if activity = "running" then month_data.jog
  else month_data.general

/-- `src/backend/logic.py calculate_cold_risk` (same computation as the
`src/logic.py` version). -/
def calculate_cold_risk (monthly_data : List DayRecord) (activity : String) : Risk :=
  if monthly_data.isEmpty then
    { probability := 0, risk_threshold := 0, risk_level := .unknown
      total_observations := 0, adverse_count := 0 }
  else
    let valid_temp_data := monthly_data.filter (fun r => r.maxTemp > -100)
    if valid_temp_data.length = 0 then
      { probability := 0, risk_threshold := 0, risk_level := .unknown
        total_observations := 0, adverse_count := 0 }
    else
      let month : Int :=
        match monthly_data with
        | [] => 1
        | r :: _ => r.month
      let cold_threshold := get_seasonal_cold_threshold month activity
      let cold_events := valid_temp_data.filter (fun r => r.maxTemp < cold_threshold)
      let total_observations := monthly_data.length
      let cold_count := cold_events.length
      let probability : Rat :=
        if total_observations > 0 then
          ((cold_count : Rat) / (total_observations : Rat)) * 100
        else 0
      let risk_level : RiskLevel :=
        if probability ≥ 20 then .high
        else if probability ≥ 10 then .moderate
        else if probability ≥ 5 then .low
        else .minimal
      { probability := pyRound probability 1
        risk_threshold := pyRound cold_threshold 1
        risk_level := risk_level
        total_observations := total_observations
        adverse_count := cold_count }

/-- `src/backend/logic.py analyze_climate_change_trend`: compares the most
recent year's mean `Max_Temperature_C` with the mean over all earlier rows
(no sentinel filtering, no distinct-year floor beyond the two subsets being
non-empty). -/
def analyze_climate_change_trend (monthly_data : List DayRecord) : Trend :=
  if monthly_data.isEmpty then
    { trend_status := .unknown, historical_mean := 0, recent_mean := 0, difference := 0 }
  else
    let recent_year := maxYear monthly_data
    let recent_data := monthly_data.filter (fun r => r.year = recent_year)
    let historical_data := monthly_data.filter (fun r => r.year < recent_year)
    if historical_data.isEmpty || recent_data.isEmpty then
      { trend_status := .insufficient_data
        historical_mean := 0, recent_mean := 0, difference := 0 }
    else
      let historical_mean := listMean (historical_data.map (·.maxTemp))
      let recent_mean := listMean (recent_data.map (·.maxTemp))
      let difference := recent_mean - historical_mean
      let trend_status : TrendStatus :=
        if difference ≥ 1 then .significant_warming
        else if difference ≥ 1/2 then .warming_trend
        else if difference ≤ -(1/2) then .cooling_trend
        else .stable
      { trend_status := trend_status
        historical_mean := pyRound historical_mean 2
        recent_mean := pyRound recent_mean 2
        difference := pyRound difference 2 }

/-- `src/backend/logic.py fetch_nasa_power_data`: same retry loop, but all
failures (transport after 3 attempts, error-shaped or malformed JSON, missing
variables, no records) return the empty DataFrame instead of raising.
`processed` abstracts the parsing/validation/record-building of a
transport-successful response. -/
def fetch_nasa_power_data (attemptOk : Nat → Bool)
    (processed : Except String (List DayRecord)) : List DayRecord :=
  match (Logic.retryRequest attemptOk).1 with
  | none => []
  | some _ =>
    match processed with
    | .ok df => df
    | .error _ => []

/-- `src/backend/logic.py load_historical_data`: validates coordinates, filters
to the month parsed from `date_str`, and attaches the trend analysis; the
enclosing `except` handler converts every raised error into an empty dataset
paired with the trend analysis of an empty dataset.  `fetched` abstracts the
DataFrame returned by the inner `fetch_nasa_power_data` call (which never
raises). -/
def load_historical_data (lat lon : Rat) (month_filter : Int)
    (fetched : List DayRecord) : List DayRecord × Trend :=
  let body : Except String (List DayRecord × Trend) :=
    if ¬ (-90 ≤ lat ∧ lat ≤ 90) then
      .error "Latitude must be between -90 and 90"
    else if ¬ (-180 ≤ lon ∧ lon ≤ 180) then
      .error "Longitude must be between -180 and 180"
    else
      let monthly_data := fetched.filter (fun r => r.month = month_filter)
      if monthly_data.isEmpty then .error "No data found for month"
      else .ok (monthly_data, analyze_climate_change_trend monthly_data)
  match body with
  | .ok p => p
  | .error _ => ([], analyze_climate_change_trend [])

end Backend

/-! ### Helper lemmas -/

theorem isEmpty_eq_false_of_ne_nil {α : Type} {l : List α} (h : l ≠ []) :
    l.isEmpty = false := by
  cases l with
  | nil => exact absurd rfl h
  | cons a l => rfl

theorem foldl_max_eq_or_mem (l : List Int) (a : Int) :
    l.foldl max a = a ∨ l.foldl max a ∈ l := by
  induction l generalizing a with
  | nil => exact Or.inl rfl
  | cons b l ih =>
    rcases ih (max a b) with h | h
    · rcases max_choice a b with hm | hm
      · exact Or.inl (by rw [List.foldl_cons, h, hm])
      · refine Or.inr ?_
        rw [List.foldl_cons, h, hm]
        exact List.mem_cons_self b l
    · exact Or.inr (List.mem_cons_of_mem b (by rw [List.foldl_cons]; exact h))

theorem maxYear_attained (rows : List DayRecord) (h : rows ≠ []) :
    ∃ r ∈ rows, r.year = maxYear rows := by
  match rows with
  | r :: rs =>
    rcases foldl_max_eq_or_mem (rs.map (·.year)) r.year with h1 | h1
    · exact ⟨r, List.mem_cons_self r rs, h1.symm⟩
    · rcases List.mem_map.mp h1 with ⟨x, hx, hxy⟩
      exact ⟨x, List.mem_cons_of_mem r hx, hxy⟩

theorem recent_filter_ne_nil (rows : List DayRecord) (h : rows ≠ []) :
    rows.filter (fun r => r.year = maxYear rows) ≠ [] := by
  obtain ⟨r, hr, hy⟩ := maxYear_attained rows h
  intro hemp
  have hm : r ∈ rows.filter (fun r => r.year = maxYear rows) :=
    List.mem_filter.mpr ⟨hr, by simp [hy]⟩
  rw [hemp] at hm
  exact (List.not_mem_nil r) hm

/-! ### Concrete datasets used by counterexamples and witnesses -/

/-- 11 January days with maxima 10..20 °C: valid, none above 30 °C. -/
def coolRows : List DayRecord :=
  [⟨2020, 1, 10, 0⟩, ⟨2020, 1, 11, 0⟩, ⟨2020, 1, 12, 0⟩, ⟨2020, 1, 13, 0⟩,
   ⟨2020, 1, 14, 0⟩, ⟨2020, 1, 15, 0⟩, ⟨2020, 1, 16, 0⟩, ⟨2020, 1, 17, 0⟩,
   ⟨2020, 1, 18, 0⟩, ⟨2020, 1, 19, 0⟩, ⟨2020, 1, 20, 0⟩]

/-- 11 January days with maxima 31..41 °C: all above 30 °C. -/
def hotRows : List DayRecord :=
  [⟨2020, 1, 31, 0⟩, ⟨2020, 1, 32, 0⟩, ⟨2020, 1, 33, 0⟩, ⟨2020, 1, 34, 0⟩,
   ⟨2020, 1, 35, 0⟩, ⟨2020, 1, 36, 0⟩, ⟨2020, 1, 37, 0⟩, ⟨2020, 1, 38, 0⟩,
   ⟨2020, 1, 39, 0⟩, ⟨2020, 1, 40, 0⟩, ⟨2020, 1, 41, 0⟩]

/-- One valid rainy day plus one row with the −999 precipitation sentinel. -/
def sentinelRows : List DayRecord :=
  [⟨2020, 4, 25, 10⟩, ⟨2020, 4, 25, -999⟩]

/-- 8 distinct years (2000–2007) of constant 20 °C March maxima. -/
def eightYearRows : List DayRecord :=
  [⟨2000, 3, 20, 0⟩, ⟨2001, 3, 20, 0⟩, ⟨2002, 3, 20, 0⟩, ⟨2003, 3, 20, 0⟩,
   ⟨2004, 3, 20, 0⟩, ⟨2005, 3, 20, 0⟩, ⟨2006, 3, 20, 0⟩, ⟨2007, 3, 20, 0⟩]

/-- 10 distinct years (2000–2009), maxima 0,0,0,0,0,10,10,10,10,20 °C. -/
def tenYearRows : List DayRecord :=
  [⟨2000, 3, 0, 0⟩, ⟨2001, 3, 0, 0⟩, ⟨2002, 3, 0, 0⟩, ⟨2003, 3, 0, 0⟩,
   ⟨2004, 3, 0, 0⟩, ⟨2005, 3, 10, 0⟩, ⟨2006, 3, 10, 0⟩, ⟨2007, 3, 10, 0⟩,
   ⟨2008, 3, 10, 0⟩, ⟨2009, 3, 20, 0⟩]

/-- Two years of data, 18 °C then 20 °C. -/
def twoYearRows : List DayRecord :=
  [⟨2000, 1, 18, 0⟩, ⟨2001, 1, 20, 0⟩]

/-- The result of the `src/logic.py` heat calculation on `coolRows`. -/
def coolRisk : Risk :=
  { probability := 0, risk_threshold := 30, risk_level := .minimal,
    total_observations := 11, adverse_count := 0 }

/-! ### Claim theorems -/

/-- C1 (counterexample): on 11 valid January days with maxima 10..20 °C, the
`src/backend/logic.py` heat calculation does not use the fixed 30.0 °C
threshold: it reports the 90th percentile 19 °C as `risk_threshold` and counts
1 adverse observation, though no row exceeds 30.0 °C. -/
theorem C1_counterexample :
    Backend.calculate_adverse_probability coolRows true =
      .ok { probability := 91/10, risk_threshold := 19, risk_level := .low,
            total_observations := 11, adverse_count := 1 } ∧
    (coolRows.filter (fun r => r.maxTemp > 30)).length = 0 ∧
    (19 : Rat) ≠ 30 ∧ (1 : Nat) ≠ 0 := by
  have hp : npPercentile [(10 : Rat), 11, 12, 13, 14, 15, 16, 17, 18, 19, 20] 90 = 19 := by
    have hq : ((11 : Rat) - 1) * 90 / 100 = 9 := by norm_num
    have ht : Int.toNat 9 = 9 := rfl
    norm_num [npPercentile, sortAsc, insertAsc, hq, ht, nthD]
  refine ⟨?_, ?_, by norm_num, by norm_num⟩
  · norm_num [Backend.calculate_adverse_probability, coolRows, List.filter, hp,
      pyRound, pyRoundInt]
  · norm_num [coolRows, List.filter]

/-- C2 (counterexample): on 11 valid January days with maxima 31..41 °C, the
`src/backend/logic.py` heat calculation returns `risk_level = HIGH` (because
the P90 threshold 40 °C is ≥ 30), while the claimed step function of the
returned `probability_pct = 9.1` yields `Low` — so the risk level is not the
same pure step function of the probability for every hazard. -/
theorem C2_counterexample :
    Backend.calculate_adverse_probability hotRows true =
      .ok { probability := 91/10, risk_threshold := 40, risk_level := .high,
            total_observations := 11, adverse_count := 1 } ∧
    riskLevelSpec (91/10) = .low ∧
    RiskLevel.high ≠ RiskLevel.low := by
  have hp : npPercentile [(31 : Rat), 32, 33, 34, 35, 36, 37, 38, 39, 40, 41] 90 = 40 := by
    have hq : ((11 : Rat) - 1) * 90 / 100 = 9 := by norm_num
    have ht : Int.toNat 9 = 9 := rfl
    norm_num [npPercentile, sortAsc, insertAsc, hq, ht, nthD]
  refine ⟨?_, ?_, by simp⟩
  · norm_num [Backend.calculate_adverse_probability, hotRows, List.filter, hp,
      pyRound, pyRoundInt]
  · norm_num [riskLevelSpec]

/-- C3 (code divergence at the failing input): both heat-risk calculators raise
`ValueError` on an empty dataset and on a dataset missing the temperature
column, instead of returning a zeroed `Unknown` result; the sibling
precipitation calculators do return the zeroed `Unknown` result on the same
empty input. -/
theorem C3_empty_dataset_raises :
    Logic.calculate_adverse_probability [] true = .error "No data provided" ∧
    Backend.calculate_adverse_probability [] true = .error "No data provided" ∧
    Logic.calculate_adverse_probability [⟨2020, 1, 25, 0⟩] false =
      .error "Temperature data not found" ∧
    Backend.calculate_adverse_probability [⟨2020, 1, 25, 0⟩] false =
      .error "Temperature data not found" ∧
    Logic.calculate_precipitation_risk [] =
      { probability := 0, risk_threshold := 0, risk_level := .unknown,
        total_observations := 0, adverse_count := 0 } ∧
    Backend.calculate_precipitation_risk [] =
      { probability := 0, risk_threshold := 0, risk_level := .unknown,
        total_observations := 0, adverse_count := 0 } := by
  refine ⟨rfl, rfl, rfl, rfl, rfl, rfl⟩

/-- C4 (counterexample): a dataset with one valid rainy row and one row whose
precipitation is the −999 sentinel yields `probability_pct = 50` from the
backend precipitation calculator, but 100 after removing the sentinel row —
the results are not identical because `total_observations` counts the sentinel
row. -/
theorem C4_counterexample :
    (Backend.calculate_precipitation_risk sentinelRows).probability = 50 ∧
    (Backend.calculate_precipitation_risk (removeSentinels sentinelRows)).probability = 100 ∧
    Backend.calculate_precipitation_risk sentinelRows ≠
      Backend.calculate_precipitation_risk (removeSentinels sentinelRows) := by
  have h1 : (Backend.calculate_precipitation_risk sentinelRows).probability = 50 := by
    norm_num [Backend.calculate_precipitation_risk, sentinelRows, List.filter,
      pyRound, pyRoundInt]
  have h2 : (Backend.calculate_precipitation_risk (removeSentinels sentinelRows)).probability
      = 100 := by
    norm_num [Backend.calculate_precipitation_risk, removeSentinels, sentinelRows,
      List.filter, pyRound, pyRoundInt]
  refine ⟨h1, h2, fun hcontra => ?_⟩
  rw [hcontra, h2] at h1
  norm_num at h1

/-- C5 (code divergence at the failing input): on a non-empty dataset with only
8 distinct years (fewer than 10), `analyze_climate_change_trend` does not
return `INSUFFICIENT_DATA` — it performs its most-recent-year vs earlier-years
comparison and returns `STABLE` with non-zeroed means. -/
theorem C5_no_ten_year_floor :
    distinctYears eightYearRows = 8 ∧
    Backend.analyze_climate_change_trend eightYearRows =
      { trend_status := .stable, historical_mean := 20, recent_mean := 20,
        difference := 0 } ∧
    (Backend.analyze_climate_change_trend eightYearRows).trend_status ≠
      .insufficient_data := by
  have h : Backend.analyze_climate_change_trend eightYearRows =
      { trend_status := .stable, historical_mean := 20, recent_mean := 20,
        difference := 0 } := by
    norm_num [Backend.analyze_climate_change_trend, eightYearRows, maxYear,
      List.foldl, max_def, List.filter, listMean, listSum, pyRound, pyRoundInt]
  refine ⟨by norm_num [distinctYears, dedupYears, eightYearRows], h, ?_⟩
  rw [h]
  simp

/-- C6 (code divergence at the failing input): on 10 distinct years with maxima
0,0,0,0,0,10,10,10,10,20 °C, `analyze_climate_change_trend` compares the single
most recent year (mean 20) against all nine earlier years (mean 40/9 ≈ 4.44),
not the first-5-year window (mean 0) against the last-5-year window (mean 12)
required by the claim. -/
theorem C6_no_five_year_windows :
    distinctYears tenYearRows = 10 ∧
    Backend.analyze_climate_change_trend tenYearRows =
      { trend_status := .significant_warming, historical_mean := 111/25,
        recent_mean := 20, difference := 389/25 } ∧
    spec_period_means tenYearRows = (0, 12) ∧
    (Backend.analyze_climate_change_trend tenYearRows).historical_mean ≠
      (spec_period_means tenYearRows).1 ∧
    (Backend.analyze_climate_change_trend tenYearRows).recent_mean ≠
      (spec_period_means tenYearRows).2 := by
  have h : Backend.analyze_climate_change_trend tenYearRows =
      { trend_status := .significant_warming, historical_mean := 111/25,
        recent_mean := 20, difference := 389/25 } := by
    norm_num [Backend.analyze_climate_change_trend, tenYearRows, maxYear,
      List.foldl, max_def, List.filter, listMean, listSum, pyRound, pyRoundInt]
  have hs : spec_period_means tenYearRows = (0, 12) := by
    norm_num [spec_period_means, tenYearRows, dedupYears, sortAsc, insertAsc,
      List.filter, listMean, listSum]
  refine ⟨by norm_num [distinctYears, dedupYears, tenYearRows], h, hs, ?_, ?_⟩
  · rw [h, hs]
    norm_num
  · rw [h, hs]
    norm_num

/-- C8 (counterexample): with latitude 100 (outside [−90, 90]) both
`load_historical_data` functions return an empty dataset to the caller instead
of letting the invalid-coordinates error propagate — the internal `ValueError`
is absorbed by the function's own catch-all handler. -/
theorem C8_counterexample :
    Logic.load_historical_data 1 100 0 (.ok [⟨2020, 1, 25, 0⟩]) = [] ∧
    ¬ ((-90 : Rat) ≤ 100 ∧ (100 : Rat) ≤ 90) ∧
    Backend.load_historical_data 100 0 1 [⟨2020, 1, 25, 0⟩] =
      ([], { trend_status := .unknown, historical_mean := 0, recent_mean := 0,
             difference := 0 }) := by
  refine ⟨?_, by norm_num, ?_⟩
  · norm_num [Logic.load_historical_data]
  · norm_num [Backend.load_historical_data, Backend.analyze_climate_change_trend,
      List.filter]

/-- C9 (counterexample): when all 3 transport attempts fail and the mock CSV
file is absent, `src/logic.py fetch_nasa_power_data` raises to its caller
rather than returning a dataset. -/
theorem C9_counterexample :
    Logic.fetch_nasa_power_data (fun _ => false) (.ok [⟨2020, 1, 25, 0⟩]) none =
      .error "NASA POWER API failed and mock data not found: Failed to fetch NASA POWER data after 3 attempts" ∧
    (Logic.retryRequest (fun _ => false)).1 = none := by
  refine ⟨rfl, rfl⟩

/-- Each month's row of the cold-threshold table is one of the five distinct
rows appearing in `seasonal_adjustments`. -/
theorem seasonal_adjustments_mem (month : Int) :
    Logic.seasonal_adjustments month = ⟨20, 22, 18, 16, 20⟩ ∨
    Logic.seasonal_adjustments month = ⟨20, 23, 18, 16, 20⟩ ∨
    Logic.seasonal_adjustments month = ⟨18, 21, 16, 14, 18⟩ ∨
    Logic.seasonal_adjustments month = ⟨16, 19, 14, 12, 16⟩ ∨
    Logic.seasonal_adjustments month = ⟨14, 17, 12, 10, 14⟩ := by
  by_cases h12 : month = 12
  · subst h12; exact Or.inl (by norm_num [Logic.seasonal_adjustments])
  by_cases h1 : month = 1
  · subst h1; exact Or.inl (by norm_num [Logic.seasonal_adjustments, h12])
  by_cases h2 : month = 2
  · subst h2; exact Or.inl (by norm_num [Logic.seasonal_adjustments, h12, h1])
  by_cases h3 : month = 3
  · subst h3
    exact Or.inr (Or.inl (by norm_num [Logic.seasonal_adjustments, h12, h1, h2]))
  by_cases h4 : month = 4
  · subst h4
    exact Or.inr (Or.inr (Or.inl (by
      norm_num [Logic.seasonal_adjustments, h12, h1, h2, h3])))
  by_cases h5 : month = 5
  · subst h5
    exact Or.inr (Or.inr (Or.inr (Or.inl (by
      norm_num [Logic.seasonal_adjustments, h12, h1, h2, h3, h4]))))
  by_cases h6 : month = 6
  · subst h6
    exact Or.inr (Or.inr (Or.inr (Or.inr (by
      norm_num [Logic.seasonal_adjustments, h12, h1, h2, h3, h4, h5]))))
  by_cases h7 : month = 7
  · subst h7
    exact Or.inr (Or.inr (Or.inr (Or.inr (by
      norm_num [Logic.seasonal_adjustments, h12, h1, h2, h3, h4, h5, h6]))))
  by_cases h8 : month = 8
  · subst h8
    exact Or.inr (Or.inr (Or.inr (Or.inr (by
      norm_num [Logic.seasonal_adjustments, h12, h1, h2, h3, h4, h5, h6, h7]))))
  by_cases h9 : month = 9
  · subst h9
    exact Or.inr (Or.inr (Or.inr (Or.inl (by
      norm_num [Logic.seasonal_adjustments, h12, h1, h2, h3, h4, h5, h6, h7, h8]))))
  by_cases h10 : month = 10
  · subst h10
    exact Or.inr (Or.inr (Or.inl (by
      norm_num [Logic.seasonal_adjustments, h12, h1, h2, h3, h4, h5, h6, h7, h8, h9])))
  by_cases h11 : month = 11
  · subst h11
    exact Or.inr (Or.inl (by
      norm_num [Logic.seasonal_adjustments, h12, h1, h2, h3, h4, h5, h6, h7, h8, h9, h10]))
  exact Or.inl (by
    simp only [Logic.seasonal_adjustments, h12, h1, h2, h3, h4, h5, h6, h7, h8, h9,
      h10, h11, if_false])

/-- The threshold returned for any activity string is one of the five fields of
the month's table row. -/
theorem threshold_is_table_field (month : Int) (activity : String) :
    Logic.get_seasonal_cold_threshold month activity =
        (Logic.seasonal_adjustments month).base ∨
    Logic.get_seasonal_cold_threshold month activity =
        (Logic.seasonal_adjustments month).beach ∨
    Logic.get_seasonal_cold_threshold month activity =
        (Logic.seasonal_adjustments month).picnic ∨
    Logic.get_seasonal_cold_threshold month activity =
        (Logic.seasonal_adjustments month).jog ∨
    Logic.get_seasonal_cold_threshold month activity =
        (Logic.seasonal_adjustments month).general := by
  unfold Logic.get_seasonal_cold_threshold
  by_cases b1 : activity = "base"
  · rw [if_pos b1]; exact Or.inl rfl
  rw [if_neg b1]
  by_cases b2 : activity = "beach"
  · rw [if_pos b2]; exact Or.inr (Or.inl rfl)
  rw [if_neg b2]
  by_cases b3 : activity = "picnic"
  · rw [if_pos b3]; exact Or.inr (Or.inr (Or.inl rfl))
  rw [if_neg b3]
  by_cases b4 : activity = "running"
  · rw [if_pos b4]; exact Or.inr (Or.inr (Or.inr (Or.inl rfl)))
  rw [if_neg b4]
  exact Or.inr (Or.inr (Or.inr (Or.inr rfl)))

/-- C10: the seasonal cold-threshold lookup is total and defaulting: it is a
total function of any integer month and any activity string; a month outside
1–12 yields the January row's threshold for the same activity; an activity
other than the four table keys yields the month's general threshold; the
result always lies in [10, 23] °C; and the backend copy agrees with the
`src/logic.py` copy. -/
theorem C10_seasonal_cold_threshold_total (month : Int) (activity : String) :
    (month < 1 ∨ 12 < month →
      Logic.get_seasonal_cold_threshold month activity =
        Logic.get_seasonal_cold_threshold 1 activity) ∧
    (activity ≠ "base" → activity ≠ "beach" → activity ≠ "picnic" →
      activity ≠ "running" →
      Logic.get_seasonal_cold_threshold month activity =
        Logic.get_seasonal_cold_threshold month "general") ∧
    10 ≤ Logic.get_seasonal_cold_threshold month activity ∧
    Logic.get_seasonal_cold_threshold month activity ≤ 23 ∧
    Backend.get_seasonal_cold_threshold month activity =
      Logic.get_seasonal_cold_threshold month activity := by
  refine ⟨?_, ?_, ?_, ?_, rfl⟩
  · intro h
    have e12 : month ≠ 12 := by omega
    have e1 : month ≠ 1 := by omega
    have e2 : month ≠ 2 := by omega
    have e3 : month ≠ 3 := by omega
    have e4 : month ≠ 4 := by omega
    have e5 : month ≠ 5 := by omega
    have e6 : month ≠ 6 := by omega
    have e7 : month ≠ 7 := by omega
    have e8 : month ≠ 8 := by omega
    have e9 : month ≠ 9 := by omega
    have e10 : month ≠ 10 := by omega
    have e11 : month ≠ 11 := by omega
    have hrow : Logic.seasonal_adjustments month = ⟨20, 22, 18, 16, 20⟩ := by
      simp only [Logic.seasonal_adjustments, e12, e1, e2, e3, e4, e5, e6, e7, e8,
        e9, e10, e11, if_false]
    have hrow1 : Logic.seasonal_adjustments 1 = ⟨20, 22, 18, 16, 20⟩ := by
      norm_num [Logic.seasonal_adjustments]
    simp only [Logic.get_seasonal_cold_threshold, hrow, hrow1]
  · intro b1 b2 b3 b4
    simp only [Logic.get_seasonal_cold_threshold]
    rw [if_neg b1, if_neg b2, if_neg b3, if_neg b4, if_neg (by decide),
      if_neg (by decide), if_neg (by decide), if_neg (by decide)]
  · rcases threshold_is_table_field month activity with h | h | h | h | h <;>
      rw [h] <;>
      rcases seasonal_adjustments_mem month with h2 | h2 | h2 | h2 | h2 <;>
      rw [h2] <;> norm_num
  · rcases threshold_is_table_field month activity with h | h | h | h | h <;>
      rw [h] <;>
      rcases seasonal_adjustments_mem month with h2 | h2 | h2 | h2 | h2 <;>
      rw [h2] <;> norm_num

/-- C10 witness: the theorem applied at month 13 and the unrecognized activity
"hiking". -/
theorem C10_seasonal_cold_threshold_total_witness :
    Logic.get_seasonal_cold_threshold 13 "hiking" =
      Logic.get_seasonal_cold_threshold 1 "hiking" ∧
    Logic.get_seasonal_cold_threshold 13 "hiking" =
      Logic.get_seasonal_cold_threshold 13 "general" ∧
    10 ≤ Logic.get_seasonal_cold_threshold 13 "hiking" ∧
    Logic.get_seasonal_cold_threshold 13 "hiking" ≤ 23 := by
  have h := C10_seasonal_cold_threshold_total 13 "hiking"
  exact ⟨h.1 (by norm_num), h.2.1 (by decide) (by decide) (by decide) (by decide),
    h.2.2.1, h.2.2.2.1⟩

/-- C7: whenever `analyze_climate_change_trend` performs its comparison (the
dataset is non-empty and has rows before the most recent year), the returned
status is the exact step function of the computed difference `d`:
`d ≥ 1.0 → SIGNIFICANT_WARMING`, `1.0 > d ≥ 0.5 → WARMING_TREND`,
`d ≤ −0.5 → COOLING_TREND`, otherwise `STABLE`, with the boundary values
falling into the named tiers; the reported `difference` field is `d` rounded
to 2 decimal places. -/
theorem C7_trend_classification (rows : List DayRecord)
    (hne : rows ≠ [])
    (hhist : rows.filter (fun r => r.year < maxYear rows) ≠ []) :
    (1 ≤ trendDifference rows →
      (Backend.analyze_climate_change_trend rows).trend_status =
        .significant_warming) ∧
    (1/2 ≤ trendDifference rows → trendDifference rows < 1 →
      (Backend.analyze_climate_change_trend rows).trend_status = .warming_trend) ∧
    (trendDifference rows ≤ -(1/2) →
      (Backend.analyze_climate_change_trend rows).trend_status = .cooling_trend) ∧
    (-(1/2) < trendDifference rows → trendDifference rows < 1/2 →
      (Backend.analyze_climate_change_trend rows).trend_status = .stable) ∧
    (Backend.analyze_climate_change_trend rows).difference =
      pyRound (trendDifference rows) 2 := by
  have hrec := recent_filter_ne_nil rows hne
  have h1 : rows.isEmpty = false := isEmpty_eq_false_of_ne_nil hne
  have h2 : (rows.filter (fun r => r.year < maxYear rows)).isEmpty = false :=
    isEmpty_eq_false_of_ne_nil hhist
  have h3 : (rows.filter (fun r => r.year = maxYear rows)).isEmpty = false :=
    isEmpty_eq_false_of_ne_nil hrec
  unfold Backend.analyze_climate_change_trend trendDifference
  simp only [h1, h2, h3, Bool.false_eq_true, if_false, Bool.or_self]
  set d : Rat :=
    listMean ((rows.filter (fun r => r.year = maxYear rows)).map (·.maxTemp)) -
      listMean ((rows.filter (fun r => r.year < maxYear rows)).map (·.maxTemp))
    with hd
  refine ⟨?_, ?_, ?_, ?_, ?_⟩
  · intro h
    split_ifs with c1 <;> first | rfl | linarith
  · intro ha hb
    split_ifs with c1 c2 <;> first | rfl | linarith
  · intro h
    split_ifs with c1 c2 c3 <;> first | rfl | linarith
  · intro ha hb
    split_ifs with c1 c2 c3 <;> first | rfl | linarith
  · trivial

/-- C7 witness: on two years of 18 °C then 20 °C data the difference is 2.0 and
the status is SIGNIFICANT_WARMING. -/
theorem C7_trend_classification_witness :
    (Backend.analyze_climate_change_trend twoYearRows).trend_status =
      .significant_warming := by
  have hd : trendDifference twoYearRows = 2 := by
    norm_num [trendDifference, maxYear, twoYearRows, List.foldl, max_def,
      List.filter, listMean, listSum]
  exact (C7_trend_classification twoYearRows (by simp [twoYearRows])
    (by norm_num [List.filter, twoYearRows, maxYear, List.foldl, max_def])).1
    (by rw [hd]; norm_num)

/-- C8 (amended): for every out-of-range latitude or longitude, both
`load_historical_data` implementations raise an internal `ValueError` that is
absorbed by their own catch-all handler, so the caller receives an empty
dataset (the backend paired with the trend analysis of an empty dataset), not
an exception. -/
theorem C8_invalid_coordinates_absorbed (month : Int) (lat lon : Rat)
    (fetchedE : Except String (List DayRecord)) (fetched : List DayRecord)
    (hbad : ¬ (-90 ≤ lat ∧ lat ≤ 90) ∨ ¬ (-180 ≤ lon ∧ lon ≤ 180)) :
    Logic.load_historical_data month lat lon fetchedE = [] ∧
    Backend.load_historical_data lat lon month fetched =
      ([], { trend_status := .unknown, historical_mean := 0, recent_mean := 0,
             difference := 0 }) := by
  constructor
  · unfold Logic.load_historical_data
    by_cases hm : month < 1 ∨ month > 12
    · simp [hm]
    · rcases hbad with h | h
      · simp [hm, h]
      · by_cases hlat : -90 ≤ lat ∧ lat ≤ 90
        · simp [hm, hlat, h]
        · simp [hm, hlat]
  · unfold Backend.load_historical_data
    rcases hbad with h | h
    · simp [h, Backend.analyze_climate_change_trend]
    · by_cases hlat : -90 ≤ lat ∧ lat ≤ 90
      · simp [hlat, h, Backend.analyze_climate_change_trend]
      · simp [hlat, Backend.analyze_climate_change_trend]

/-- C8 witness: the theorem applied at latitude 95 with a non-empty fetched
dataset. -/
theorem C8_invalid_coordinates_absorbed_witness :
    Logic.load_historical_data 1 95 0 (.ok twoYearRows) = [] ∧
    Backend.load_historical_data 95 0 1 twoYearRows =
      ([], { trend_status := .unknown, historical_mean := 0, recent_mean := 0,
             difference := 0 }) :=
  C8_invalid_coordinates_absorbed 1 95 0 (.ok twoYearRows) twoYearRows
    (Or.inl (by norm_num))

/-- C9 (amended): the transport loop makes up to `max_retries = 3` attempts
(two retries after the first attempt, a 2-second sleep after every failed
attempt except the last); when all 3 attempts fail, the `src/logic.py`
acquirer returns the mock dataset if the mock CSV is readable but raises to
its caller when it is missing, while the backend acquirer always returns a
(possibly empty) dataset without raising. -/
theorem C9_retry_and_fallback (attemptOk : Nat → Bool)
    (processed : Except String (List DayRecord)) (mock : List DayRecord)
    (hfail : ∀ i, attemptOk i = false) :
    (∀ g : Nat → Bool, (Logic.retryRequest g).2 ≤ Logic.max_retries - 1) ∧
    (Logic.retryRequest attemptOk).1 = none ∧
    (Logic.retryRequest attemptOk).2 = Logic.max_retries - 1 ∧
    Logic.fetch_nasa_power_data attemptOk processed none =
      .error "NASA POWER API failed and mock data not found: Failed to fetch NASA POWER data after 3 attempts" ∧
    Logic.fetch_nasa_power_data attemptOk processed (some mock) = .ok mock ∧
    Backend.fetch_nasa_power_data attemptOk processed = [] := by
  refine ⟨?_, ?_, ?_, ?_, ?_, ?_⟩
  · intro g
    unfold Logic.retryRequest Logic.max_retries
    split_ifs <;> norm_num
  · simp [Logic.retryRequest, hfail 0, hfail 1, hfail 2]
  · simp [Logic.retryRequest, Logic.max_retries, hfail 0, hfail 1, hfail 2]
  · simp [Logic.fetch_nasa_power_data, Logic.retryRequest, hfail 0, hfail 1, hfail 2]
  · simp [Logic.fetch_nasa_power_data, Logic.retryRequest, hfail 0, hfail 1, hfail 2]
  · simp [Backend.fetch_nasa_power_data, Logic.retryRequest, hfail 0, hfail 1, hfail 2]

/-- C9 witness: the theorem applied to the always-failing transport. -/
theorem C9_retry_and_fallback_witness :
    (Logic.retryRequest (fun _ => false)).2 = Logic.max_retries - 1 ∧
    Logic.fetch_nasa_power_data (fun _ => false) (.ok twoYearRows) (some twoYearRows) =
      .ok twoYearRows ∧
    Backend.fetch_nasa_power_data (fun _ => false) (.ok twoYearRows) = [] := by
  have h := C9_retry_and_fallback (fun _ => false) (.ok twoYearRows) twoYearRows
    (fun i => rfl)
  exact ⟨h.2.2.1, h.2.2.2.2.1, h.2.2.2.2.2⟩

/-- C1 (amended): with a non-empty dataset containing at least one valid row,
the `src/logic.py` heat calculation uses the fixed threshold 30.0 °C with
`adverse_count` the number of valid rows strictly above 30.0 °C, while the
`src/backend/logic.py` heat calculation uses the 90th percentile of the valid
temperatures as the exceedance threshold, with `adverse_count` the number of
valid rows strictly above that percentile. -/
theorem C1_heat_threshold_by_module (rows : List DayRecord)
    (hne : rows ≠ [])
    (hvalid : rows.filter (fun r => r.maxTemp > -100) ≠ []) :
    (Logic.calculate_adverse_probability rows true).toOption.map Risk.risk_threshold
      = some 30 ∧
    (Logic.calculate_adverse_probability rows true).toOption.map Risk.adverse_count
      = some ((rows.filter (fun r => r.maxTemp > -100)).filter
          (fun r => r.maxTemp > 30)).length ∧
    (Backend.calculate_adverse_probability rows true).toOption.map Risk.risk_threshold
      = some (pyRound (npPercentile
          ((rows.filter (fun r => r.maxTemp > -100)).map (·.maxTemp)) 90) 1) ∧
    (Backend.calculate_adverse_probability rows true).toOption.map Risk.adverse_count
      = some ((rows.filter (fun r => r.maxTemp > -100)).filter
          (fun r => r.maxTemp > npPercentile
            ((rows.filter (fun x => x.maxTemp > -100)).map (·.maxTemp)) 90)).length := by
  have h1 : rows.isEmpty = false := isEmpty_eq_false_of_ne_nil hne
  have h2 : (rows.filter (fun r => r.maxTemp > -100)).length ≠ 0 := by
    simpa [List.length_eq_zero] using hvalid
  refine ⟨?_, ?_, ?_, ?_⟩
  · unfold Logic.calculate_adverse_probability
    rw [if_neg (by simp [h1]), if_neg (by simp), if_neg h2]
    norm_num [Except.toOption, pyRound, pyRoundInt]
  · unfold Logic.calculate_adverse_probability
    rw [if_neg (by simp [h1]), if_neg (by simp), if_neg h2]
    simp [Except.toOption]
  · unfold Backend.calculate_adverse_probability
    rw [if_neg (by simp [h1]), if_neg (by simp), if_neg h2]
    simp [Except.toOption]
  · unfold Backend.calculate_adverse_probability
    rw [if_neg (by simp [h1]), if_neg (by simp), if_neg h2]
    simp [Except.toOption]

/-- C1 witness: the theorem applied to `coolRows` (11 valid rows). -/
theorem C1_heat_threshold_by_module_witness :
    (Logic.calculate_adverse_probability coolRows true).toOption.map Risk.risk_threshold
      = some 30 ∧
    (Backend.calculate_adverse_probability coolRows true).toOption.map Risk.risk_threshold
      = some (pyRound (npPercentile
          ((coolRows.filter (fun r => r.maxTemp > -100)).map (·.maxTemp)) 90) 1) := by
  have h := C1_heat_threshold_by_module coolRows (by simp [coolRows])
    (by intro hcontra; norm_num [coolRows, List.filter] at hcontra
        exact List.cons_ne_nil _ _ hcontra)
  exact ⟨h.1, h.2.2.1⟩

/-- C2 (amended): the risk level is the spec's step function of the computed
probability (reconstructible as `100 · adverse_count / total_observations`)
for the `src/logic.py` heat calculator and both precipitation and cold
calculators; the `src/backend/logic.py` heat calculator instead classifies by
the P90 threshold value (≥30 High, ≥25 Moderate, else Low), independent of the
probability. -/
theorem C2_risk_level_step (rows : List DayRecord) (activity : String) :
    (∀ res : Risk, Logic.calculate_adverse_probability rows true = .ok res →
      res.risk_level =
        riskLevelSpec (((res.adverse_count : Rat) / (res.total_observations : Rat)) * 100)) ∧
    (∀ res : Risk, Logic.calculate_precipitation_risk rows = res →
      res.risk_level ≠ .unknown →
      res.risk_level =
        riskLevelSpec (((res.adverse_count : Rat) / (res.total_observations : Rat)) * 100)) ∧
    (∀ res : Risk, Backend.calculate_precipitation_risk rows = res →
      res.risk_level ≠ .unknown →
      res.risk_level =
        riskLevelSpec (((res.adverse_count : Rat) / (res.total_observations : Rat)) * 100)) ∧
    (∀ res : Risk, Logic.calculate_cold_risk rows activity = res →
      res.risk_level ≠ .unknown →
      res.risk_level =
        riskLevelSpec (((res.adverse_count : Rat) / (res.total_observations : Rat)) * 100)) ∧
    (∀ res : Risk, Backend.calculate_cold_risk rows activity = res →
      res.risk_level ≠ .unknown →
      res.risk_level =
        riskLevelSpec (((res.adverse_count : Rat) / (res.total_observations : Rat)) * 100)) ∧
    (∀ res : Risk, Backend.calculate_adverse_probability rows true = .ok res →
      res.risk_level ≠ .unknown →
      res.risk_level =
        (if npPercentile ((rows.filter (fun r => r.maxTemp > -100)).map (·.maxTemp)) 90
            ≥ 30 then .high
         else if npPercentile ((rows.filter (fun r => r.maxTemp > -100)).map (·.maxTemp)) 90
            ≥ 25 then .moderate
         else .low)) := by
  have hlen : ∀ l : List DayRecord, l.isEmpty = false → l.length > 0 := by
    intro l hl
    cases l with
    | nil => simp at hl
    | cons a t => simp
  refine ⟨?_, ?_, ?_, ?_, ?_, ?_⟩
  · intro res h
    unfold Logic.calculate_adverse_probability at h
    by_cases g1 : rows.isEmpty
    · rw [if_pos (by simp [g1])] at h; exact Except.noConfusion h
    rw [if_neg (by simp [g1]), if_neg (by simp)] at h
    by_cases g3 : (rows.filter (fun r => r.maxTemp > -100)).length = 0
    · rw [if_pos g3] at h; exact Except.noConfusion h
    rw [if_neg g3] at h
    injection h with h
    subst h
    have ht : rows.length > 0 := hlen rows (by simpa using g1)
    simp only [riskLevelSpec]
    rw [if_pos ht]
  · intro res h hneq
    unfold Logic.calculate_precipitation_risk at h
    by_cases g1 : rows.isEmpty
    · rw [if_pos (by simp [g1])] at h
      subst h; exact absurd rfl hneq
    rw [if_neg (by simp [g1])] at h
    by_cases g3 : (rows.filter (fun r => r.precip ≥ 0)).length = 0
    · rw [if_pos g3] at h; subst h; exact absurd rfl hneq
    rw [if_neg g3] at h
    subst h
    have ht : rows.length > 0 := hlen rows (by simpa using g1)
    simp only [riskLevelSpec]
    rw [if_pos ht]
  · intro res h hneq
    unfold Backend.calculate_precipitation_risk at h
    by_cases g1 : rows.isEmpty
    · rw [if_pos (by simp [g1])] at h
      subst h; exact absurd rfl hneq
    rw [if_neg (by simp [g1])] at h
    by_cases g3 : (rows.filter (fun r => r.precip ≥ 0)).length = 0
    · rw [if_pos g3] at h; subst h; exact absurd rfl hneq
    rw [if_neg g3] at h
    subst h
    have ht : rows.length > 0 := hlen rows (by simpa using g1)
    simp only [riskLevelSpec]
    rw [if_pos ht]
  · intro res h hneq
    unfold Logic.calculate_cold_risk at h
    by_cases g1 : rows.isEmpty
    · rw [if_pos (by simp [g1])] at h
      subst h; exact absurd rfl hneq
    rw [if_neg (by simp [g1])] at h
    by_cases g3 : (rows.filter (fun r => r.maxTemp > -100)).length = 0
    · rw [if_pos g3] at h; subst h; exact absurd rfl hneq
    rw [if_neg g3] at h
    subst h
    have ht : rows.length > 0 := hlen rows (by simpa using g1)
    simp only [riskLevelSpec]
    rw [if_pos ht]
  · intro res h hneq
    unfold Backend.calculate_cold_risk at h
    by_cases g1 : rows.isEmpty
    · rw [if_pos (by simp [g1])] at h
      subst h; exact absurd rfl hneq
    rw [if_neg (by simp [g1])] at h
    by_cases g3 : (rows.filter (fun r => r.maxTemp > -100)).length = 0
    · rw [if_pos g3] at h; subst h; exact absurd rfl hneq
    rw [if_neg g3] at h
    subst h
    have ht : rows.length > 0 := hlen rows (by simpa using g1)
    simp only [riskLevelSpec]
    rw [if_pos ht]
  · intro res h hneq
    unfold Backend.calculate_adverse_probability at h
    by_cases g1 : rows.isEmpty
    · rw [if_pos (by simp [g1])] at h; exact Except.noConfusion h
    rw [if_neg (by simp [g1]), if_neg (by simp)] at h
    by_cases g3 : (rows.filter (fun r => r.maxTemp > -100)).length = 0
    · rw [if_pos g3] at h
      injection h with h
      subst h
      exact absurd rfl hneq
    rw [if_neg g3] at h
    injection h with h
    subst h
    rfl

/-- C2 witness: the theorem's heat clause applied to `coolRows`, whose result
has probability 0 and level MINIMAL = `riskLevelSpec 0`. -/
theorem C2_risk_level_step_witness :
    coolRisk.risk_level =
      riskLevelSpec (((coolRisk.adverse_count : Rat) /
        (coolRisk.total_observations : Rat)) * 100) := by
  refine (C2_risk_level_step coolRows "general").1 coolRisk ?_
  norm_num [Logic.calculate_adverse_probability, coolRows, List.filter, coolRisk,
    pyRound, pyRoundInt]

/-- C4 (amended): sentinel-row invariance holds only for the backend heat
calculator and only for rows whose temperature is the sentinel (given at least
one valid temperature row): its counts are taken over the valid rows.  The
precipitation calculators instead use `len(monthly_data)` — the count of all
rows, sentinel rows included — as `total_observations`, which is why their
probabilities change when sentinel rows are removed. -/
theorem C4_sentinel_totals (rows : List DayRecord)
    (hvalid : rows.filter (fun r => r.maxTemp > -100) ≠ []) :
    Backend.calculate_adverse_probability (rows.filter (fun r => r.maxTemp ≠ -999)) true
      = Backend.calculate_adverse_probability rows true ∧
    (rows.filter (fun r => r.precip ≥ 0) ≠ [] →
      (Backend.calculate_precipitation_risk rows).total_observations = rows.length ∧
      (Logic.calculate_precipitation_risk rows).total_observations = rows.length) := by
  have hff : (rows.filter (fun r => r.maxTemp ≠ -999)).filter (fun r => r.maxTemp > -100)
      = rows.filter (fun r => r.maxTemp > -100) := by
    rw [List.filter_filter]
    refine List.filter_congr ?_
    intro a _
    by_cases hgt : a.maxTemp > -100
    · have h9 : a.maxTemp ≠ -999 := by
        intro hx
        rw [hx] at hgt
        norm_num at hgt
      simp [hgt, h9]
    · simp [hgt]
  obtain ⟨a, ha⟩ := List.exists_mem_of_ne_nil _ hvalid
  have hmem := List.mem_filter.mp ha
  have hagt : a.maxTemp > -100 := by simpa using hmem.2
  have ha9 : a.maxTemp ≠ -999 := by
    intro hx
    rw [hx] at hagt
    norm_num at hagt
  have hne9 : rows.filter (fun r => r.maxTemp ≠ -999) ≠ [] :=
    List.ne_nil_of_mem (List.mem_filter.mpr ⟨hmem.1, by simp [ha9]⟩)
  have hrowsne : rows ≠ [] := List.ne_nil_of_mem hmem.1
  have hvlen : (rows.filter (fun r => r.maxTemp > -100)).length ≠ 0 := by
    simpa [List.length_eq_zero] using hvalid
  constructor
  · unfold Backend.calculate_adverse_probability
    rw [hff, isEmpty_eq_false_of_ne_nil hne9, isEmpty_eq_false_of_ne_nil hrowsne]
    simp [hvlen]
  · intro hp
    have hlenp : (rows.filter (fun r => r.precip ≥ 0)).length ≠ 0 := by
      simpa [List.length_eq_zero] using hp
    constructor
    · unfold Backend.calculate_precipitation_risk
      rw [if_neg (by simp [isEmpty_eq_false_of_ne_nil hrowsne]), if_neg hlenp]
    · unfold Logic.calculate_precipitation_risk
      rw [if_neg (by simp [isEmpty_eq_false_of_ne_nil hrowsne]), if_neg hlenp]

/-- C4 witness: the theorem applied to `sentinelRows` (both rows have valid
temperature 25 °C, one row has the −999 precipitation sentinel). -/
theorem C4_sentinel_totals_witness :
    Backend.calculate_adverse_probability
        (sentinelRows.filter (fun r => r.maxTemp ≠ -999)) true
      = Backend.calculate_adverse_probability sentinelRows true ∧
    (Backend.calculate_precipitation_risk sentinelRows).total_observations =
      sentinelRows.length := by
  have hv : sentinelRows.filter (fun r => r.maxTemp > -100) ≠ [] := by
    intro hc
    norm_num [sentinelRows, List.filter] at hc
    exact List.cons_ne_nil _ _ hc
  have hpr : sentinelRows.filter (fun r => r.precip ≥ 0) ≠ [] := by
    intro hc
    norm_num [sentinelRows, List.filter] at hc
  have h := C4_sentinel_totals sentinelRows hv
  exact ⟨h.1, (h.2 hpr).1⟩

end ParadePlanner
